import Mathlib

/-!
Verification model of the Fyre scriptable HTTP server (src/main.rs).

The embedding mirrors the Rust source: `execute_handler_pipeline` becomes a
pure function over an explicit per-request response state, the Lua boundary
is modelled by a small value type together with the two coercions the Rust
code performs through mlua (`get` as `i32`, `get`/pair conversion as
`String`), the dispatch loop of `main` becomes a function from a request to
a response, and configuration loading becomes a fold over the commands the
config script issues.  External collaborators are passed in as parameters:
the filesystem is a predicate on paths, script evaluation is a function from
a script path to a loaded handler module or an error, and the header
validation done by tiny_http `Header::from_bytes` is a boolean predicate on
the already-converted name/value strings.
-/

set_option autoImplicit false

namespace Fyre

/-- Lua values as far as the Rust side of Fyre observes them: the response
table fields and header-table entries it reads back.  Lua integers are
64-bit, modelled as unbounded `Int` with the 32-bit window checked at the
read sites, which is where the Rust source constrains them. -/
inductive LuaValue where
  | nil
  | boolean (b : Bool)
  | int (n : Int)
  | str (s : String)
  | table (entries : List (LuaValue × LuaValue))

/-- Reading a Lua value as a Rust `i32` through mlua, as done by
`res_table.get::<i32>("status")` (main.rs lines 316 and 348).  Integers and
numeric strings coerce; a value outside the `i32` range, or of any other
shape, fails the conversion and yields `none`. -/
def getI32 : LuaValue → Option Int
  | LuaValue.int n =>
      if -2147483648 ≤ n ∧ n < 2147483648 then some n else none
  | LuaValue.str s =>
      match s.toInt? with
      | some n => if -2147483648 ≤ n ∧ n < 2147483648 then some n else none
      | none => none
  | _ => none

/-- Reading a Lua value as a Rust `String` through mlua, as done by
`res_table.get::<String>("body")` (main.rs line 349) and by the
`pairs::<String, String>()` iteration over the headers table (line 362).
Strings pass through and integers are formatted; nil, booleans and tables
do not convert. -/
def luaToStr : LuaValue → Option String
  | LuaValue.str s => some s
  | LuaValue.int n => some (toString n)
  | _ => none

/-- The immutable request view exposed to the Lua stages (main.rs lines
268 to 276). -/
structure Req where
  method : String
  path : String
  body : String
  headers : List (String × String)

/-- The mutable response table the three stages share (main.rs lines
279 to 282): the three fields the Rust side writes and reads back. -/
structure ResState where
  status : LuaValue
  body : LuaValue
  headers : LuaValue

/-- Initial response state, `{status = 200, body = "", headers = {}}`
(main.rs lines 280 to 282). -/
def initResponse : ResState :=
  { status := LuaValue.int 200, body := LuaValue.str "", headers := LuaValue.table [] }

/-- A pipeline stage function from a handler module.  Calling it with the
request view and the current response state yields the response state after
whatever mutation the Lua code performed, together with the error the call
raised, if any; a Lua function can mutate the response table and still
raise, so the mutated state accompanies the error. -/
abbrev Stage := Req → ResState → ResState × Option String

/-- The value a handler script evaluates to: a table with up to three
optional stage functions (spec section 3; main.rs lines 309, 320, 341).
A member that is absent, or present but not a function, shows up as
`none`, matching the `if let Ok(f) = module_table.get::<LuaFunction>(..)`
pattern in the source. -/
structure HandlerModule where
  middleware : Option Stage
  handler : Option Stage
  response_hook : Option Stage

/-- Observable stage invocations, used to state how often each stage
function is called during one request. -/
inductive StageEv where
  | middleware
  | handler
  | hook
deriving DecidableEq

/-- The native response handed back to tiny_http once the pipeline is
done: status code, body, and the headers that survived validation. -/
structure HttpResponse where
  status : Nat
  body : String
  headers : List (String × String)
deriving DecidableEq

/-- Truncating cast of the finalized status, `final_status as u16`
(main.rs line 354). -/
def toU16 (n : Int) : Nat := (n % 65536).toNat

/-- Header collection loop of FINALIZE (main.rs lines 361 to 369): each
pair is converted to strings via mlua (a conversion failure aborts the
whole pipeline, `pair?`), then `Header::from_bytes` validation, modelled by
the `valid` predicate, decides whether the pair is kept or dropped with a
warning. -/
def collectHeaders (valid : String → String → Bool) :
    List (LuaValue × LuaValue) → Except String (List (String × String))
  | [] => Except.ok []
  | kv :: rest =>
    match luaToStr kv.1, luaToStr kv.2 with
    | some k, some v =>
      match collectHeaders valid rest with
      | Except.error e => Except.error e
      | Except.ok tail => Except.ok (if valid k v then (k, v) :: tail else tail)
    | _, _ => Except.error "runtime error converting header pair to String"

/-- FINALIZE (main.rs lines 347 to 371): read the status back with default
500 on a failed read, read the body (a failed read is a fatal pipeline
error), then walk the headers table. -/
def finalize (valid : String → String → Bool) (s : ResState) :
    Except String HttpResponse :=
  match luaToStr s.body with
  | none => Except.error "Failed to get body from response table"
  | some b =>
    match s.headers with
    | LuaValue.table entries =>
      match collectHeaders valid entries with
      | Except.error e => Except.error e
      | Except.ok hs =>
        Except.ok { status := toU16 ((getI32 s.status).getD 500), body := b, headers := hs }
    | _ => Except.error "Failed to get headers table from response table"

/-- BEFORE stage (main.rs lines 309 to 313): call `middleware` when
present; an error is only logged, the mutated state is kept either way. -/
def runBefore (m : HandlerModule) (req : Req) : ResState × List StageEv :=
  match m.middleware with
  | some f => ((f req initResponse).1, [StageEv.middleware])
  | none => (initResponse, [])

/-- Fallible invocation of a stage function: an error raised by the call
is surfaced, otherwise the mutated response state is the result.  This is
the shape of `handler.call::<()>(..)` at main.rs line 322, where the
mutation lives in the shared `res_table` and the call result only carries
the error. -/
def stageCall (f : Stage) (req : Req) (s : ResState) : Except String ResState :=
  match f req s with
  | (_, some e) => Except.error e
  | (s2, none) => Except.ok s2

/-- DECIDE plus MAIN (main.rs lines 316 to 338): read the status as `i32`
with default 200; on exactly 200 call `handler` when present (an error
aborts the pipeline), otherwise skip MAIN as intercepted. -/
def runMain (m : HandlerModule) (req : Req) (s1 : ResState) :
    Except String ResState × List StageEv :=
  if (getI32 s1.status).getD 200 = 200 then
    match m.handler with
    | some f => (stageCall f req s1, [StageEv.handler])
    | none => (Except.ok s1, [])
  else (Except.ok s1, [])

/-- AFTER stage (main.rs lines 341 to 345): call `response_hook` when
present; an error is only logged, the mutated state is kept either way. -/
def runAfter (m : HandlerModule) (req : Req) (s2 : ResState) : ResState × List StageEv :=
  match m.response_hook with
  | some f => ((f req s2).1, [StageEv.hook])
  | none => (s2, [])

/-- Pipeline tail from DECIDE onwards: MAIN, then (unless MAIN aborted)
AFTER and FINALIZE. -/
def pipelineFrom (valid : String → String → Bool) (m : HandlerModule) (req : Req)
    (s1 : ResState) : Except String HttpResponse × List StageEv :=
  match runMain m req s1 with
  | (Except.error e, t2) => (Except.error e, t2)
  | (Except.ok s2, t2) =>
    match runAfter m req s2 with
    | (s3, t3) => (finalize valid s3, t2 ++ t3)

/-- Whole pipeline over a loaded module (main.rs lines 298 to 371),
together with the trace of stage invocations.  The `load` argument is the
outcome of reading and evaluating the handler script (LOAD); a load
failure is fatal before any stage runs. -/
def pipelineRun (valid : String → String → Bool)
    (load : Except String HandlerModule) (req : Req) :
    Except String HttpResponse × List StageEv :=
  match load with
  | Except.error e => (Except.error e, [])
  | Except.ok m =>
    match runBefore m req with
    | (s1, t1) =>
      match pipelineFrom valid m req s1 with
      | (r, t) => (r, t1 ++ t)

/-- Result of `execute_handler_pipeline` (main.rs lines 253 to 372): the
response, or the fatal error handed to the dispatch loop. -/
def execute_handler_pipeline (valid : String → String → Bool)
    (load : Except String HandlerModule) (req : Req) : Except String HttpResponse :=
  (pipelineRun valid load req).1

/-- Response the dispatch loop builds from a fatal pipeline error
(main.rs lines 117 to 118). -/
def fatalResponse (e : String) : HttpResponse :=
  { status := 500, body := "Server Error: " ++ e, headers := [] }

/-- Response for an unregistered path (main.rs line 126). -/
def notFoundResponse : HttpResponse :=
  { status := 404, body := "404 Not Found", headers := [] }

/-- The route table: URL path to handler script path, read on every
request. -/
abbrev RoutesMap := String → Option String

/-- One iteration of the request loop of `main` (main.rs lines 103 to
131): look the url up in the route table, run the pipeline on a hit,
answer 404 on a miss, and convert a fatal pipeline error into a 500
response carrying the error text.  The `scripts` parameter is the LOAD
step for a given script path: filesystem read plus Lua evaluation. -/
def dispatch (valid : String → String → Bool)
    (scripts : String → Except String HandlerModule)
    (routes : RoutesMap) (req : Req) : HttpResponse :=
  match routes req.path with
  | some sp =>
    match execute_handler_pipeline valid (scripts sp) req with
    | Except.ok r => r
    | Except.error e => fatalResponse e
  | none => notFoundResponse

/-- The request loop itself: every incoming request is answered and the
loop continues unconditionally to the next one. -/
def serve (valid : String → String → Bool)
    (scripts : String → Except String HandlerModule)
    (routes : RoutesMap) (reqs : List Req) : List HttpResponse :=
  reqs.map (dispatch valid scripts routes)

/-- Directory holding the Lua handler scripts (main.rs line 29). -/
def LUA_SCRIPTS_DIR : String := "scripts"

/-- Default bind address (main.rs line 27). -/
def DEFAULT_SERVER_ADDR : String := "0.0.0.0:8000"

/-- Effects a run of the configuration script can have on the host, in
order: `router.add`, the advisory `router.set_addr`, and assigning the
`SERVER_ADDR` global. -/
inductive ConfigCmd where
  | add (path script : String)
  | set_addr (addr : String)
  | setServerAddr (addr : String)

/-- Execution of the configuration script against the host callbacks
(main.rs lines 172 to 209).  `router.add` resolves a script under
`LUA_SCRIPTS_DIR` and fails when the file does not exist; an uncaught
failure aborts the script, so the remaining commands never run.
`router.set_addr` only logs.  The second state component is the
`SERVER_ADDR` global read back after execution. -/
def runConfig (fs : String → Bool) :
    List ConfigCmd → RoutesMap → Option String →
    Except String (RoutesMap × Option String)
  | [], routes, addr => Except.ok (routes, addr)
  | ConfigCmd.add path script :: rest, routes, addr =>
    if fs (LUA_SCRIPTS_DIR ++ "/" ++ script) then
      runConfig fs rest
        (fun p => if p = path then some (LUA_SCRIPTS_DIR ++ "/" ++ script) else routes p)
        addr
    else
      Except.error ("Handler script not found: " ++ (LUA_SCRIPTS_DIR ++ "/" ++ script))
  | ConfigCmd.set_addr _ :: rest, routes, addr => runConfig fs rest routes addr
  | ConfigCmd.setServerAddr a :: rest, routes, _ => runConfig fs rest routes (some a)

/-- Configuration loading (main.rs lines 164 to 212): reading or parsing
`config.lua` can itself fail, otherwise the script runs from an empty
route table and an unset `SERVER_ADDR`. -/
def load_lua_config (fs : String → Bool)
    (config : Except String (List ConfigCmd)) :
    Except String (RoutesMap × Option String) :=
  match config with
  | Except.error e => Except.error e
  | Except.ok cmds => runConfig fs cmds (fun _ => none) none

/-- Outcome of startup (main.rs lines 65 to 101): either configuration
loading failed and `main` returned its error before `Server::http` ran, or
the server went on to bind the chosen address with the loaded routes. -/
inductive MainOutcome where
  | configFailed (msg : String)
  | bound (addr : String) (routes : RoutesMap)

/-- Address the server would bind, when it binds one. -/
def boundAddr : MainOutcome → Option String
  | MainOutcome.configFailed _ => none
  | MainOutcome.bound a _ => some a

/-- Startup logic of `main` up to the bind (main.rs lines 68 to 99): the
address starts from the default, a CLI argument overrides it, then the
configured address is taken only when no CLI argument was given; a
configuration failure returns early, before any socket is bound. -/
def mainStartup (fs : String → Bool) (cliArg : Option String)
    (config : Except String (List ConfigCmd)) : MainOutcome :=
  let addr0 :=
    match cliArg with
    | some a => a
    | none => DEFAULT_SERVER_ADDR
  match load_lua_config fs config with
  | Except.error e => MainOutcome.configFailed e
  | Except.ok (routes, luaAddr) =>
    match cliArg, luaAddr with
    | none, some la => MainOutcome.bound la routes
    | _, _ => MainOutcome.bound addr0 routes

/-- Headers that survive FINALIZE when every pair converts to strings: the
pairs kept by `Header::from_bytes` validation, in table order. -/
def headersOut (valid : String → String → Bool) :
    List (LuaValue × LuaValue) → List (String × String)
  | [] => []
  | kv :: rest =>
    match luaToStr kv.1, luaToStr kv.2 with
    | some k, some v =>
      if valid k v then (k, v) :: headersOut valid rest else headersOut valid rest
    | _, _ => headersOut valid rest

/-- Sample request used by the concrete counterexamples and witnesses. -/
def sampleReq : Req :=
  { method := "GET", path := "/", body := "", headers := [] }

/-- Header validation that accepts every pair; stands in for
`Header::from_bytes` succeeding. -/
def allValid : String → String → Bool := fun _ _ => true

/-- Header validation that rejects the name `Bad`; stands in for
`Header::from_bytes` refusing one malformed name. -/
def demoValid : String → String → Bool := fun k _ => !(k == "Bad")

/-- Module whose handler raises a fatal error while a response hook is
present. -/
def hookAfterFatalModule : HandlerModule :=
  { middleware := none,
    handler := some (fun _ s => (s, some "boom")),
    response_hook := some (fun _ s => (s, none)) }

/-- Module with only a response hook. -/
def okHookModule : HandlerModule :=
  { middleware := none,
    handler := none,
    response_hook := some (fun _ s => (s, none)) }

/-- Module whose middleware sets the status to an integer outside the
`i32` range. -/
def bigStatusModule : HandlerModule :=
  { middleware := some (fun _ s => ({ s with status := LuaValue.int 2147483648 }, none)),
    handler := some (fun _ s => (s, none)),
    response_hook := none }

/-- Module whose middleware answers the request with a 404 status. -/
def redirectModule : HandlerModule :=
  { middleware := some (fun _ s => ({ s with status := LuaValue.int 404 }, none)),
    handler := some (fun _ s => (s, none)),
    response_hook := none }

/-- Module whose middleware removes the status field. -/
def nilStatusModule : HandlerModule :=
  { middleware := some (fun _ s => ({ s with status := LuaValue.nil }, none)),
    handler := some (fun _ s => ({ s with body := LuaValue.str "ran" }, none)),
    response_hook := none }

/-- Module whose middleware mutates the body and then raises. -/
def failingMwModule : HandlerModule :=
  { middleware := some (fun _ s => ({ s with body := LuaValue.str "mutated-body" }, some "mw boom")),
    handler := none,
    response_hook := none }

/-- Response state left behind by the failing middleware above. -/
def mutatedState : ResState :=
  { status := LuaValue.int 200, body := LuaValue.str "mutated-body",
    headers := LuaValue.table [] }

/-- Module with only a handler that raises. -/
def errHandlerModule : HandlerModule :=
  { middleware := none,
    handler := some (fun _ s => (s, some "boom")),
    response_hook := none }

/-- Route table with a single registered path. -/
def demoRoutes : RoutesMap :=
  fun p => if p = "/" then some "scripts/home.lua" else none

/-- Script loading that always yields the failing handler module. -/
def demoScripts : String → Except String HandlerModule :=
  fun _ => Except.ok errHandlerModule

/-- Response state whose status was left unreadable. -/
def unreadableStatusState : ResState :=
  { status := LuaValue.nil, body := LuaValue.str "late", headers := LuaValue.table [] }

/-- Response state with one valid and one invalid header pair. -/
def demoState : ResState :=
  { status := LuaValue.int 201, body := LuaValue.str "created",
    headers := LuaValue.table
      [(LuaValue.str "Good", LuaValue.str "1"), (LuaValue.str "Bad", LuaValue.str "2")] }

/-- Configuration outcome that only sets the SERVER_ADDR global. -/
def cfgWithAddr : Except String (List ConfigCmd) :=
  Except.ok [ConfigCmd.setServerAddr "127.0.0.1:9090"]

/-! Structural lemmas about the pipeline, shared by the claim theorems. -/

theorem pipelineRun_ok_eq (valid : String → String → Bool) (m : HandlerModule) (req : Req) :
    pipelineRun valid (Except.ok m) req =
      ((pipelineFrom valid m req (runBefore m req).1).1,
        (runBefore m req).2 ++ (pipelineFrom valid m req (runBefore m req).1).2) := rfl

theorem pipelineFrom_main_ok (valid : String → String → Bool) (m : HandlerModule)
    (req : Req) (s1 s2 : ResState) (t2 : List StageEv)
    (h : runMain m req s1 = (Except.ok s2, t2)) :
    pipelineFrom valid m req s1 =
      (finalize valid (runAfter m req s2).1, t2 ++ (runAfter m req s2).2) := by
  unfold pipelineFrom
  rw [h]

theorem pipelineFrom_main_err (valid : String → String → Bool) (m : HandlerModule)
    (req : Req) (s1 : ResState) (e : String) (t2 : List StageEv)
    (h : runMain m req s1 = (Except.error e, t2)) :
    pipelineFrom valid m req s1 = (Except.error e, t2) := by
  unfold pipelineFrom
  rw [h]

theorem stageCall_err (f : Stage) (req : Req) (s s2 : ResState) (e : String)
    (h : f req s = (s2, some e)) : stageCall f req s = Except.error e := by
  unfold stageCall
  rw [h]

theorem stageCall_ok (f : Stage) (req : Req) (s s2 : ResState)
    (h : f req s = (s2, none)) : stageCall f req s = Except.ok s2 := by
  unfold stageCall
  rw [h]

theorem runBefore_some (m : HandlerModule) (req : Req) (f : Stage)
    (h : m.middleware = some f) :
    runBefore m req = ((f req initResponse).1, [StageEv.middleware]) := by
  unfold runBefore
  rw [h]

theorem runBefore_none (m : HandlerModule) (req : Req) (h : m.middleware = none) :
    runBefore m req = (initResponse, []) := by
  unfold runBefore
  rw [h]

theorem runMain_some (m : HandlerModule) (req : Req) (s1 : ResState) (f : Stage)
    (h200 : (getI32 s1.status).getD 200 = 200) (hh : m.handler = some f) :
    runMain m req s1 = (stageCall f req s1, [StageEv.handler]) := by
  unfold runMain
  rw [if_pos h200, hh]

theorem runMain_noHandler (m : HandlerModule) (req : Req) (s1 : ResState)
    (h200 : (getI32 s1.status).getD 200 = 200) (hh : m.handler = none) :
    runMain m req s1 = (Except.ok s1, []) := by
  unfold runMain
  rw [if_pos h200, hh]

theorem runMain_intercepted (m : HandlerModule) (req : Req) (s1 : ResState)
    (hne : ¬ (getI32 s1.status).getD 200 = 200) :
    runMain m req s1 = (Except.ok s1, []) := by
  unfold runMain
  rw [if_neg hne]

theorem runAfter_some (m : HandlerModule) (req : Req) (s : ResState) (f : Stage)
    (h : m.response_hook = some f) :
    runAfter m req s = ((f req s).1, [StageEv.hook]) := by
  unfold runAfter
  rw [h]

theorem runAfter_none (m : HandlerModule) (req : Req) (s : ResState)
    (h : m.response_hook = none) : runAfter m req s = (s, []) := by
  unfold runAfter
  rw [h]

theorem count_hook_runBefore (m : HandlerModule) (req : Req) :
    List.count StageEv.hook (runBefore m req).2 = 0 := by
  cases h : m.middleware with
  | none => rw [runBefore_none m req h]; rfl
  | some f => rw [runBefore_some m req f h]; rfl

theorem count_handler_runBefore (m : HandlerModule) (req : Req) :
    List.count StageEv.handler (runBefore m req).2 = 0 := by
  cases h : m.middleware with
  | none => rw [runBefore_none m req h]; rfl
  | some f => rw [runBefore_some m req f h]; rfl

theorem count_hook_runMain (m : HandlerModule) (req : Req) (s : ResState) :
    List.count StageEv.hook (runMain m req s).2 = 0 := by
  by_cases h200 : (getI32 s.status).getD 200 = 200
  · cases hh : m.handler with
    | none => rw [runMain_noHandler m req s h200 hh]; rfl
    | some f => rw [runMain_some m req s f h200 hh]; rfl
  · rw [runMain_intercepted m req s h200]; rfl

theorem count_handler_runAfter (m : HandlerModule) (req : Req) (s : ResState) :
    List.count StageEv.handler (runAfter m req s).2 = 0 := by
  cases h : m.response_hook with
  | none => rw [runAfter_none m req s h]; rfl
  | some f => rw [runAfter_some m req s f h]; rfl

theorem count_handler_when_decide200 (valid : String → String → Bool)
    (m : HandlerModule) (req : Req) (f : Stage)
    (h200 : (getI32 (runBefore m req).1.status).getD 200 = 200)
    (hh : m.handler = some f) :
    List.count StageEv.handler (pipelineRun valid (Except.ok m) req).2 = 1 := by
  rw [pipelineRun_ok_eq]
  have hrm := runMain_some m req (runBefore m req).1 f h200 hh
  cases hc : stageCall f req (runBefore m req).1 with
  | error err =>
    rw [hc] at hrm
    rw [pipelineFrom_main_err valid m req _ err _ hrm, List.count_append,
      count_handler_runBefore]
    rfl
  | ok s2 =>
    rw [hc] at hrm
    rw [pipelineFrom_main_ok valid m req _ s2 _ hrm, List.count_append,
      List.count_append, count_handler_runBefore, count_handler_runAfter]
    rfl

theorem collectHeaders_all_convertible (valid : String → String → Bool) :
    ∀ entries : List (LuaValue × LuaValue),
      (∀ kv ∈ entries, (luaToStr kv.1).isSome = true ∧ (luaToStr kv.2).isSome = true) →
      collectHeaders valid entries = Except.ok (headersOut valid entries) := by
  intro entries
  induction entries with
  | nil => intro _; rfl
  | cons kv rest ih =>
    intro h
    obtain ⟨hk, hv⟩ := h kv (List.mem_cons_self kv rest)
    have hrest := fun x hx => h x (List.mem_cons_of_mem kv hx)
    rcases hks : luaToStr kv.1 with _ | ks
    · rw [hks] at hk
      simp at hk
    rcases hvs : luaToStr kv.2 with _ | vs
    · rw [hvs] at hv
      simp at hv
    simp only [collectHeaders, headersOut, hks, hvs, ih hrest]

theorem collectHeaders_bad_pair (valid : String → String → Bool) :
    ∀ (entries : List (LuaValue × LuaValue)) (k v : LuaValue),
      (k, v) ∈ entries → (luaToStr k = none ∨ luaToStr v = none) →
      ∃ e, collectHeaders valid entries = Except.error e := by
  intro entries
  induction entries with
  | nil =>
    intro k v h _
    cases h
  | cons kv rest ih =>
    intro k v hmem hbad
    rcases hk0 : luaToStr kv.1 with _ | ks
    · refine ⟨"runtime error converting header pair to String", ?_⟩
      simp only [collectHeaders, hk0]
    rcases hv0 : luaToStr kv.2 with _ | vs
    · refine ⟨"runtime error converting header pair to String", ?_⟩
      simp only [collectHeaders, hk0, hv0]
    have hmem2 : (k, v) ∈ rest := by
      rcases List.mem_cons.mp hmem with heq | h
      · rcases kv with ⟨k0, v0⟩
        injection heq with hkk hvv
        subst hkk
        subst hvv
        rcases hbad with hb | hb
        · rw [hb] at hk0
          simp at hk0
        · rw [hb] at hv0
          simp at hv0
      · exact h
    obtain ⟨e, he⟩ := ih k v hmem2 hbad
    refine ⟨e, ?_⟩
    simp only [collectHeaders, hk0, hv0, he]

theorem runConfig_missing_script (fs : String → Bool) (p s : String)
    (hfs : fs (LUA_SCRIPTS_DIR ++ "/" ++ s) = false) :
    ∀ (cmds : List ConfigCmd) (routes : RoutesMap) (addr : Option String),
      ConfigCmd.add p s ∈ cmds →
      ∃ e, runConfig fs cmds routes addr = Except.error e := by
  intro cmds
  induction cmds with
  | nil =>
    intro routes addr h
    cases h
  | cons c rest ih =>
    intro routes addr hmem
    cases c with
    | add p2 s2 =>
      by_cases hex : fs (LUA_SCRIPTS_DIR ++ "/" ++ s2) = true
      · have hmem2 : ConfigCmd.add p s ∈ rest := by
          rcases List.mem_cons.mp hmem with heq | h
          · injection heq with hpp hss
            subst hpp
            subst hss
            rw [hfs] at hex
            simp at hex
          · exact h
        simp only [runConfig, if_pos hex]
        exact ih _ _ hmem2
      · refine ⟨"Handler script not found: " ++ (LUA_SCRIPTS_DIR ++ "/" ++ s2), ?_⟩
        simp only [runConfig, if_neg hex]
    | set_addr a =>
      have hmem2 : ConfigCmd.add p s ∈ rest := by
        rcases List.mem_cons.mp hmem with heq | h
        · cases heq
        · exact h
      simp only [runConfig]
      exact ih _ _ hmem2
    | setServerAddr a =>
      have hmem2 : ConfigCmd.add p s ∈ rest := by
        rcases List.mem_cons.mp hmem with heq | h
        · cases heq
        · exact h
      simp only [runConfig]
      exact ih _ _ hmem2

theorem finalize_body_unreadable (valid : String → String → Bool) (s : ResState)
    (h : luaToStr s.body = none) :
    finalize valid s = Except.error "Failed to get body from response table" := by
  unfold finalize
  rw [h]

theorem finalize_table (valid : String → String → Bool) (s : ResState) (b : String)
    (entries : List (LuaValue × LuaValue))
    (hbody : luaToStr s.body = some b) (hhdrs : s.headers = LuaValue.table entries) :
    finalize valid s =
      (match collectHeaders valid entries with
        | Except.error e => Except.error e
        | Except.ok hs =>
          Except.ok { status := toU16 ((getI32 s.status).getD 500), body := b,
                      headers := hs }) := by
  unfold finalize
  rw [hbody, hhdrs]

theorem dispatch_hit (valid : String → String → Bool)
    (scripts : String → Except String HandlerModule) (routes : RoutesMap)
    (req : Req) (sp : String) (h : routes req.path = some sp) :
    dispatch valid scripts routes req =
      (match execute_handler_pipeline valid (scripts sp) req with
        | Except.ok r => r
        | Except.error e => fatalResponse e) := by
  unfold dispatch
  rw [h]

theorem load_lua_config_ok (fs : String → Bool) (cmds : List ConfigCmd) :
    load_lua_config fs (Except.ok cmds) = runConfig fs cmds (fun _ => none) none := rfl

theorem mainStartup_configError (fs : String → Bool) (cliArg : Option String)
    (config : Except String (List ConfigCmd)) (e : String)
    (h : load_lua_config fs config = Except.error e) :
    mainStartup fs cliArg config = MainOutcome.configFailed e := by
  unfold mainStartup
  rw [h]

/-! Claim theorems. -/

/-- C1 counterexample: the claim that `response_hook` is invoked exactly
once per request regardless of how the MAIN stage went is false.  In the
concrete module whose handler raises a fatal error, the hook is present
yet invoked zero times, because the pipeline returns the error before the
AFTER stage (main.rs line 323). -/
theorem hook_not_called_on_handler_fatal_error :
    hookAfterFatalModule.response_hook.isSome = true ∧
    List.count StageEv.hook
      (pipelineRun allValid (Except.ok hookAfterFatalModule) sampleReq).2 = 0 :=
  ⟨rfl, by decide⟩

/-- C1 (amended): when the handler module defines a `response_hook` and the
MAIN stage does not raise a fatal error, the pipeline invokes the hook
exactly once, regardless of whether the handler was absent, skipped by the
short-circuit, or ran. -/
theorem response_hook_called_once_when_main_not_fatal
    (valid : String → String → Bool) (m : HandlerModule) (req : Req)
    (f : Stage) (s2 : ResState)
    (hhook : m.response_hook = some f)
    (hmain : (runMain m req (runBefore m req).1).1 = Except.ok s2) :
    List.count StageEv.hook (pipelineRun valid (Except.ok m) req).2 = 1 := by
  have hrm : runMain m req (runBefore m req).1 =
      (Except.ok s2, (runMain m req (runBefore m req).1).2) := by
    rw [← hmain]
  rw [pipelineRun_ok_eq, pipelineFrom_main_ok valid m req _ s2 _ hrm,
    List.count_append, List.count_append, count_hook_runBefore, count_hook_runMain,
    runAfter_some m req s2 f hhook]
  rfl

/-- C1 witness: a module with only a response hook has it invoked exactly
once. -/
theorem response_hook_called_once_when_main_not_fatal_witness :
    List.count StageEv.hook
      (pipelineRun allValid (Except.ok okHookModule) sampleReq).2 = 1 :=
  response_hook_called_once_when_main_not_fatal allValid okHookModule sampleReq
    (fun _ s => (s, none)) initResponse rfl rfl

/-- C2 counterexample: the claim that any integer status other than 200
skips the handler is false.  A middleware that sets the status to the
integer 2147483648, which is not 200, still has the handler invoked,
because the `i32` read of the status fails on an out-of-range integer and
the code falls back to 200 (main.rs line 316). -/
theorem overlarge_status_does_not_skip_handler :
    (runBefore bigStatusModule sampleReq).1.status = LuaValue.int 2147483648 ∧
    (2147483648 : Int) ≠ 200 ∧
    List.count StageEv.handler
      (pipelineRun allValid (Except.ok bigStatusModule) sampleReq).2 = 1 :=
  ⟨rfl, by decide, by decide⟩

/-- C2 (amended): if the middleware stage leaves `response.status` at an
integer value readable by the 32-bit status read and different from 200,
the main handler is never invoked; if that read yields exactly 200, the
pipeline proceeds to the main handler.  A status the read cannot convert,
including an integer outside the `i32` range, defaults to 200. -/
theorem decide_status_short_circuit
    (valid : String → String → Bool) (m : HandlerModule) (req : Req) (n : Int)
    (hn : getI32 (runBefore m req).1.status = some n) :
    (n ≠ 200 →
      List.count StageEv.handler (pipelineRun valid (Except.ok m) req).2 = 0)
    ∧ (n = 200 → ∀ f : Stage, m.handler = some f →
        List.count StageEv.handler (pipelineRun valid (Except.ok m) req).2 = 1) := by
  constructor
  · intro hne
    have hcond : ¬ (getI32 (runBefore m req).1.status).getD 200 = 200 := by
      rw [hn]
      exact hne
    have hrm := runMain_intercepted m req (runBefore m req).1 hcond
    rw [pipelineRun_ok_eq, pipelineFrom_main_ok valid m req _ _ _ hrm,
      List.count_append, List.count_append, count_handler_runBefore,
      count_handler_runAfter]
    rfl
  · intro h200 f hf
    refine count_handler_when_decide200 valid m req f ?_ hf
    rw [hn, h200]
    rfl

/-- C2 witness: a middleware that sets status 404 makes the handler run
zero times. -/
theorem decide_status_short_circuit_witness :
    (404 : Int) ≠ 200 ∧
    List.count StageEv.handler
      (pipelineRun allValid (Except.ok redirectModule) sampleReq).2 = 0 :=
  ⟨by decide,
    (decide_status_short_circuit allValid redirectModule sampleReq 404 (by decide)).1
      (by decide)⟩

/-- C3: a fatal error raised by the main handler stage makes the dispatch
loop answer 500 with body `Server Error: <message>` carrying the error
text of the stage, and the loop goes on to serve the remaining requests
unchanged. -/
theorem handler_error_yields_500_and_loop_continues
    (valid : String → String → Bool)
    (scripts : String → Except String HandlerModule) (routes : RoutesMap)
    (req : Req) (sp : String) (m : HandlerModule) (f : Stage)
    (s2 : ResState) (msg : String) (rest : List Req)
    (hroute : routes req.path = some sp)
    (hload : scripts sp = Except.ok m)
    (hstatus : (getI32 (runBefore m req).1.status).getD 200 = 200)
    (hhandler : m.handler = some f)
    (herr : f req (runBefore m req).1 = (s2, some msg)) :
    dispatch valid scripts routes req =
      { status := 500, body := "Server Error: " ++ msg, headers := [] }
    ∧ serve valid scripts routes (req :: rest) =
        dispatch valid scripts routes req :: serve valid scripts routes rest := by
  have hsc := stageCall_err f req (runBefore m req).1 s2 msg herr
  have hrm : runMain m req (runBefore m req).1 = (Except.error msg, [StageEv.handler]) := by
    rw [runMain_some m req (runBefore m req).1 f hstatus hhandler, hsc]
  have hpipe : execute_handler_pipeline valid (Except.ok m) req = Except.error msg := by
    unfold execute_handler_pipeline
    rw [pipelineRun_ok_eq, pipelineFrom_main_err valid m req _ msg _ hrm]
  constructor
  · rw [dispatch_hit valid scripts routes req sp hroute, hload, hpipe]
    rfl
  · rfl

/-- C3 witness: a handler raising `boom` produces the concrete 500
response and the next request is still dispatched. -/
theorem handler_error_yields_500_and_loop_continues_witness :
    dispatch allValid demoScripts demoRoutes sampleReq =
      { status := 500, body := "Server Error: " ++ "boom", headers := [] }
    ∧ serve allValid demoScripts demoRoutes (sampleReq :: [sampleReq]) =
        dispatch allValid demoScripts demoRoutes sampleReq ::
          serve allValid demoScripts demoRoutes [sampleReq] :=
  handler_error_yields_500_and_loop_continues allValid demoScripts demoRoutes
    sampleReq "scripts/home.lua" errHandlerModule (fun _ s => (s, some "boom"))
    initResponse "boom" [sampleReq] (by decide) rfl (by decide) rfl rfl

/-- C4: when the configuration script registers a handler script whose
resolved file does not exist, configuration loading fails and `main`
returns the error before `Server::http` ever runs: the startup outcome is
`configFailed`, not `bound`. -/
theorem missing_script_fails_config_no_bind
    (fs : String → Bool) (cliArg : Option String) (cmds : List ConfigCmd)
    (p s : String)
    (hmem : ConfigCmd.add p s ∈ cmds)
    (hfs : fs (LUA_SCRIPTS_DIR ++ "/" ++ s) = false) :
    ∃ e, mainStartup fs cliArg (Except.ok cmds) = MainOutcome.configFailed e := by
  obtain ⟨e, he⟩ := runConfig_missing_script fs p s hfs cmds (fun _ => none) none hmem
  refine ⟨e, mainStartup_configError fs cliArg (Except.ok cmds) e ?_⟩
  rw [load_lua_config_ok]
  exact he

/-- C4 witness: registering a script on an empty filesystem fails
startup before the bind. -/
theorem missing_script_fails_config_no_bind_witness :
    ∃ e, mainStartup (fun _ => false) none
        (Except.ok [ConfigCmd.add "/" "home.lua"]) = MainOutcome.configFailed e :=
  missing_script_fails_config_no_bind (fun _ => false) none
    [ConfigCmd.add "/" "home.lua"] "/" "home.lua" (List.Mem.head _) rfl

/-- C5: the bind address follows the fixed precedence: a CLI argument
always wins; otherwise the SERVER_ADDR value from the configuration
script, when present, is used; otherwise the built-in default address. -/
theorem address_precedence
    (fs : String → Bool) (config : Except String (List ConfigCmd))
    (a : String) (routes : RoutesMap) (luaAddr : Option String)
    (hload : load_lua_config fs config = Except.ok (routes, luaAddr)) :
    boundAddr (mainStartup fs (some a) config) = some a
    ∧ boundAddr (mainStartup fs none config) = some (luaAddr.getD DEFAULT_SERVER_ADDR) := by
  unfold mainStartup
  rw [hload]
  cases luaAddr <;> simp [boundAddr, Option.getD]

/-- C5 witness: with a CLI argument the CLI address is bound, without one
the configured SERVER_ADDR is bound. -/
theorem address_precedence_witness :
    boundAddr (mainStartup (fun _ => true) (some "10.1.1.1:80") cfgWithAddr)
        = some "10.1.1.1:80"
    ∧ boundAddr (mainStartup (fun _ => true) none cfgWithAddr)
        = some "127.0.0.1:9090" :=
  address_precedence (fun _ => true) cfgWithAddr "10.1.1.1:80"
    (fun _ => none) (some "127.0.0.1:9090") rfl

/-- C6: at FINALIZE a status that is missing or unreadable as an integer
defaults to 500 in the finalized response, while the very same field was
initialized to the integer 200 before the stages ran: the unreadable
final status counts as failure, the initial state as success. -/
theorem finalize_status_default_500
    (valid : String → String → Bool) (s : ResState) (r : HttpResponse)
    (hstat : getI32 s.status = none)
    (hok : finalize valid s = Except.ok r) :
    r.status = 500 ∧ initResponse.status = LuaValue.int 200 := by
  refine ⟨?_, rfl⟩
  unfold finalize at hok
  rw [hstat] at hok
  split at hok
  · exact Except.noConfusion hok
  · split at hok
    · split at hok
      · exact Except.noConfusion hok
      · injection hok with h
        rw [← h]
        rfl
    · exact Except.noConfusion hok

/-- C6 witness: a nil status finalizes to 500. -/
theorem finalize_status_default_500_witness :
    ({ status := 500, body := "late", headers := [] } : HttpResponse).status = 500
    ∧ initResponse.status = LuaValue.int 200 :=
  finalize_status_default_500 allValid unreadableStatusState
    { status := 500, body := "late", headers := [] } rfl rfl

/-- C7: when every header pair converts to strings, finalization succeeds,
delivers the body, and keeps exactly the pairs that form a valid header:
each invalid pair is dropped without failing the remaining pairs or the
response. -/
theorem invalid_headers_dropped_body_delivered
    (valid : String → String → Bool) (s : ResState) (b : String)
    (entries : List (LuaValue × LuaValue))
    (hbody : luaToStr s.body = some b)
    (hhdrs : s.headers = LuaValue.table entries)
    (hconv : ∀ kv ∈ entries,
      (luaToStr kv.1).isSome = true ∧ (luaToStr kv.2).isSome = true) :
    finalize valid s =
      Except.ok { status := toU16 ((getI32 s.status).getD 500), body := b,
                  headers := headersOut valid entries } := by
  rw [finalize_table valid s b entries hbody hhdrs,
    collectHeaders_all_convertible valid entries hconv]

/-- C7 witness: with a validator refusing the name `Bad`, the bad pair is
dropped, the good pair and the body survive. -/
theorem invalid_headers_dropped_body_delivered_witness :
    finalize demoValid demoState =
      Except.ok { status := 201, body := "created", headers := [("Good", "1")] } := by
  rw [invalid_headers_dropped_body_delivered demoValid demoState "created"
    [(LuaValue.str "Good", LuaValue.str "1"), (LuaValue.str "Bad", LuaValue.str "2")]
    rfl rfl (by decide)]
  rfl

/-- C8: an error raised by the middleware stage is non-fatal.  The state
it mutated before failing is the state the rest of the pipeline runs
from, and the pipeline proceeds to DECIDE exactly as it would had the
middleware returned the same state without an error. -/
theorem middleware_error_nonfatal
    (valid : String → String → Bool) (m : HandlerModule) (req : Req)
    (f : Stage) (s1 : ResState) (err : String)
    (hmw : m.middleware = some f)
    (hcall : f req initResponse = (s1, some err)) :
    (runBefore m req).1 = s1
    ∧ pipelineRun valid (Except.ok m) req =
        ((pipelineFrom valid m req s1).1,
          StageEv.middleware :: (pipelineFrom valid m req s1).2) := by
  have hB : runBefore m req = (s1, [StageEv.middleware]) := by
    rw [runBefore_some m req f hmw, hcall]
  constructor
  · rw [hB]
  · rw [pipelineRun_ok_eq, hB]
    rfl

/-- C8 witness: a middleware that mutates the body and raises leaves its
mutation in place and the pipeline continues from DECIDE. -/
theorem middleware_error_nonfatal_witness :
    (runBefore failingMwModule sampleReq).1 = mutatedState
    ∧ pipelineRun allValid (Except.ok failingMwModule) sampleReq =
        ((pipelineFrom allValid failingMwModule sampleReq mutatedState).1,
          StageEv.middleware ::
            (pipelineFrom allValid failingMwModule sampleReq mutatedState).2) :=
  middleware_error_nonfatal allValid failingMwModule sampleReq
    (fun _ s => ({ s with body := LuaValue.str "mutated-body" }, some "mw boom"))
    mutatedState "mw boom" rfl rfl

/-- C9: when the status after BEFORE has been removed or is unreadable as
an integer, DECIDE treats it as 200 and the main handler is still
invoked. -/
theorem unreadable_status_defaults_200_runs_handler
    (valid : String → String → Bool) (m : HandlerModule) (req : Req) (f : Stage)
    (hstat : getI32 (runBefore m req).1.status = none)
    (hh : m.handler = some f) :
    (getI32 (runBefore m req).1.status).getD 200 = 200
    ∧ List.count StageEv.handler (pipelineRun valid (Except.ok m) req).2 = 1 := by
  have h200 : (getI32 (runBefore m req).1.status).getD 200 = 200 := by
    rw [hstat]
    rfl
  exact ⟨h200, count_handler_when_decide200 valid m req f h200 hh⟩

/-- C9 witness: a middleware that sets the status to nil still has the
handler invoked once. -/
theorem unreadable_status_defaults_200_runs_handler_witness :
    (getI32 (runBefore nilStatusModule sampleReq).1.status).getD 200 = 200
    ∧ List.count StageEv.handler
        (pipelineRun allValid (Except.ok nilStatusModule) sampleReq).2 = 1 :=
  unreadable_status_defaults_200_runs_handler allValid nilStatusModule sampleReq
    (fun _ s => ({ s with body := LuaValue.str "ran" }, none)) rfl rfl

/-- C10: a headers-table entry whose key or value cannot be converted to a
string makes FINALIZE fail with a fatal error, which the dispatch loop
turns into a 500 response, instead of dropping the entry as it does for a
string pair that merely fails header validation. -/
theorem unconvertible_header_pair_fatal
    (valid : String → String → Bool) (st bd : LuaValue)
    (entries : List (LuaValue × LuaValue)) (k v : LuaValue)
    (hmem : (k, v) ∈ entries)
    (hbad : luaToStr k = none ∨ luaToStr v = none) :
    ∃ e, finalize valid { status := st, body := bd, headers := LuaValue.table entries }
          = Except.error e
      ∧ fatalResponse e =
          { status := 500, body := "Server Error: " ++ e, headers := [] } := by
  rcases hb : luaToStr bd with _ | b
  · exact ⟨"Failed to get body from response table",
      finalize_body_unreadable valid _ hb, rfl⟩
  · obtain ⟨e, he⟩ := collectHeaders_bad_pair valid entries k v hmem hbad
    refine ⟨e, ?_, rfl⟩
    rw [finalize_table valid _ b entries hb rfl, he]

/-- C10 witness: a boolean header key aborts finalization with a fatal
error. -/
theorem unconvertible_header_pair_fatal_witness :
    ∃ e, finalize allValid
          { status := LuaValue.int 200, body := LuaValue.str "",
            headers := LuaValue.table [(LuaValue.boolean true, LuaValue.str "x")] }
          = Except.error e
      ∧ fatalResponse e =
          { status := 500, body := "Server Error: " ++ e, headers := [] } :=
  unconvertible_header_pair_fatal allValid (LuaValue.int 200) (LuaValue.str "")
    [(LuaValue.boolean true, LuaValue.str "x")] (LuaValue.boolean true)
    (LuaValue.str "x") (List.Mem.head _) (Or.inl rfl)

end Fyre
